import Mathlib

/-!
Shallow embedding of the chproxy repository (github.com/alexdzyoba/chproxy)
for checking its natural-language specification.

The embedding covers:
* the custom duration grammar and byte-size grammar used by the YAML
  configuration (`config/time.go` is not part of src/, so those two parsers
  are modelled from the spec and from the package's own tests, see the doc
  comments on `parseDuration`, `durationString` and `byteSizeParse`);
* the configuration data model and validation of `config/config.go`
  (the `UnmarshalYAML` methods and `LoadFile`), with YAML documents
  represented by `Raw*` records whose `Option` fields distinguish an absent
  key from a present value, matching gopkg.in/yaml.v2 semantics (an absent
  key leaves the field at the value it had before decoding);
* the HTTP method/path dispatch of `serveHTTP` and the hot-reload path
  (`reloadConfig` and the SIGHUP handler loop) of `main.go`.

Go `time.Duration` values are modelled as `Nat` nanosecond counts (chproxy
only ever produces non-negative durations: its parser accepts no sign), and
Go strings as Lean `String`/`List Char`.
-/

set_option maxHeartbeats 1000000
set_option linter.unnecessarySeqFocus false

deriving instance DecidableEq for Except

namespace Chproxy

/-! ### Decimal numerals

Helpers modelling Go's base-10 integer formatting (`fmt` `%v`/`%d` on an
integer) and the digit runs consumed by the duration / byte-size grammars. -/

/-- The digit character for `n < 10` (Go writes `'0' + n`). -/
def digitChar (n : Nat) : Char := Char.ofNat (48 + n)

/-- Numeric value of a digit character. -/
def digitVal (c : Char) : Nat := c.toNat - 48

/-- Decimal digits of `n`, least significant first. `fuel` bounds the
recursion depth (any `fuel ≥ n` yields all digits); structural recursion on
the fuel keeps the function kernel-reducible. -/
def natDigitsRevF (fuel n : Nat) : List Char :=
  match fuel with
  | 0 => []
  | fuel + 1 => if n = 0 then [] else digitChar (n % 10) :: natDigitsRevF fuel (n / 10)

/-- Go-style decimal representation of a natural number. -/
def natRepr (n : Nat) : List Char :=
  if n = 0 then ['0'] else (natDigitsRevF n n).reverse

/-- Value of a run of decimal digit characters (most significant first). -/
def digitsVal (l : List Char) : Nat :=
  l.foldl (fun a c => 10 * a + digitVal c) 0

/-- Model of Go's `%q` on the strings appearing in chproxy error messages
(none of them contains characters that `%q` would escape). -/
def quoteStr (s : String) : String := "\"" ++ s ++ "\""

/-- Go's `if v == 0 { v = dflt }` pattern used for timeout defaults. -/
def defaultIfZero (v dflt : Nat) : Nat := if v = 0 then dflt else v

/-! ### Durations

`config/time.go` is not among the source files (src/ holds only its test
file), so the duration type is modelled from the spec and from the tests. -/

/-- Nanoseconds in a microsecond. -/
def usNs : Nat := 1000

/-- Nanoseconds in a millisecond. -/
def msNs : Nat := 1000 * usNs

/-- Nanoseconds in a second. -/
def secondNs : Nat := 1000 * msNs

/-- Nanoseconds in a minute. -/
def minuteNs : Nat := 60 * secondNs

/-- Nanoseconds in an hour. -/
def hourNs : Nat := 60 * minuteNs

/-- Nanoseconds in a day (the grammar defines `d` as `24h`). -/
def dayNs : Nat := 24 * hourNs

/-- Nanoseconds in a week (the grammar defines `w` as `7d`). -/
def weekNs : Nat := 7 * dayNs

/-- The duration units accepted by the grammar, with their nanosecond
factors: ns, µs, ms, s, m, h, d, w. -/
def unitTable : List (List Char × Nat) :=
  [(['n', 's'], 1), (['µ', 's'], usNs), (['m', 's'], msNs), (['s'], secondNs),
   (['m'], minuteNs), (['h'], hourNs), (['d'], dayNs), (['w'], weekNs)]

/-- The parse error produced for a string outside the duration grammar
(message format fixed by TestParseDurationNegative). -/
def durationErrMsg (s : String) : String :=
  "not a valid duration string: " ++ quoteStr s

/-- Modelled from the spec: `parseDuration` of `config/time.go` is absent
from src/. Per spec §6 ("a constrained duration grammar supporting units
ns/µs/ms/s/m/h/d/w only (no fractional, no composite)") and the
TestParseDuration / TestParseDurationNegative vectors, it accepts exactly a
non-empty run of decimal digits immediately followed by one unit, returns
the value in nanoseconds, and rejects everything else with
`not a valid duration string: "<s>"`. -/
def parseDuration (s : String) : Except String Nat :=
  let ds := s.data.takeWhile Char.isDigit
  let rest := s.data.dropWhile Char.isDigit
  if ds.isEmpty then .error (durationErrMsg s)
  else
    match List.lookup rest unitTable with
    | none => .error (durationErrMsg s)
    | some f => .ok (digitsVal ds * f)

/-- The unit `Duration.String` prints a value with: the largest unit that
evenly divides it, tried from `w` down to `µs`, defaulting to `ns`. -/
def durationUnit (v : Nat) : List Char × Nat :=
  if v % weekNs = 0 then (['w'], weekNs)
  else if v % dayNs = 0 then (['d'], dayNs)
  else if v % hourNs = 0 then (['h'], hourNs)
  else if v % minuteNs = 0 then (['m'], minuteNs)
  else if v % secondNs = 0 then (['s'], secondNs)
  else if v % msNs = 0 then (['m', 's'], msNs)
  else if v % usNs = 0 then (['µ', 's'], usNs)
  else (['n', 's'], 1)

/-- Modelled from the spec: `Duration.String` of `config/time.go` is absent
from src/. TestParseDuration requires `v.String()` to print the original
string for `10ns … 80w`, which forces the value to be printed in the
largest unit that divides it evenly (`75d` stays `75d` because 75 days is
not a whole number of weeks), followed by that unit's name. -/
def durationString (v : Nat) : String :=
  String.mk (natRepr (v / (durationUnit v).2) ++ (durationUnit v).1)

/-! ### Byte sizes

The `ByteSize` implementation is also absent from src/ (only its uses and
the TestBadConfig vector are present); modelled from the spec. -/

/-- The parse error for a malformed byte-size string (format fixed by the
"cache max size" case of TestBadConfig). -/
def byteSizeErrMsg (s : String) : String :=
  "cannot parse byte size " ++ quoteStr s ++
    ": it must be positive float followed by optional units. For example, 1.5Gb, 3T"

/-- Byte-size suffixes with decimal-prefix factors: optional `B`, and
`K`/`M`/`G`/`T` meaning 10^3/10^6/10^9/10^12 (spec §6: "Byte sizes support
suffixes B/K/M/G/T in decimal-prefix form"). -/
def byteUnitTable : List (List Char × Nat) :=
  [([], 1), (['B'], 1), (['K'], 1000), (['M'], 1000000),
   (['G'], 1000000000), (['T'], 1000000000000)]

/-- Modelled from the spec: byte-size parsing (absent from src/). A
non-empty run of digits, an optional fractional part, and an optional
suffix B/K/M/G/T with decimal-prefix meaning; anything else — in
particular any negative value, which starts with `-` — is rejected with
the message from TestBadConfig. The result is truncated to whole bytes. -/
def byteSizeParse (s : String) : Except String Nat :=
  let ip := s.data.takeWhile Char.isDigit
  let rest := s.data.dropWhile Char.isDigit
  if ip.isEmpty then .error (byteSizeErrMsg s)
  else if rest.head? = some '.' then
    let rest2 := rest.tail
    let fp := rest2.takeWhile Char.isDigit
    let rest3 := rest2.dropWhile Char.isDigit
    if fp.isEmpty then .error (byteSizeErrMsg s)
    else
      match List.lookup rest3 byteUnitTable with
      | none => .error (byteSizeErrMsg s)
      | some f => .ok ((digitsVal ip * 10 ^ fp.length + digitsVal fp) * f / 10 ^ fp.length)
  else
    match List.lookup rest byteUnitTable with
    | none => .error (byteSizeErrMsg s)
    | some f => .ok (digitsVal ip * f)

/-! ### Configuration data model (`config/config.go`)

Loaded values. Durations are `Nat` nanosecond counts, byte sizes `Nat`
byte counts. Field names follow the Go structs. -/

/-- `config.ClusterUser` (config.go:414). -/
structure ClusterUser where
  name : String
  password : String
  maxConcurrentQueries : Nat
  maxExecutionTime : Nat
  reqPerMin : Nat
  maxQueueSize : Nat
  maxQueueTime : Nat
deriving DecidableEq

/-- `config.Replica` (config.go:196). -/
structure Replica where
  name : String
  nodes : List String
deriving DecidableEq

/-- `config.KillQueryUser` (config.go:223). -/
structure KillQueryUser where
  name : String
  password : String
deriving DecidableEq

/-- `config.Cluster` (config.go:139). -/
structure Cluster where
  name : String
  nodes : List String
  replicas : List Replica
  clusterUsers : List ClusterUser
  killQueryUser : KillQueryUser
  heartBeatInterval : Nat
deriving DecidableEq

/-- `config.User` (config.go:248). -/
structure UserCfg where
  name : String
  password : String
  toCluster : String
  toUser : String
  maxConcurrentQueries : Nat
  maxExecutionTime : Nat
  reqPerMin : Nat
  maxQueueSize : Nat
  maxQueueTime : Nat
  denyHTTP : Bool
  denyHTTPS : Bool
  allowCORS : Bool
  cache : String
  params : String
deriving DecidableEq

/-- `config.Cache` (config.go:335). -/
structure CacheCfg where
  name : String
  dir : String
  maxSize : Nat
  expire : Nat
  graceTime : Nat
deriving DecidableEq

/-- `config.Param` (config.go:406). -/
structure Param where
  key : String
  value : String
deriving DecidableEq

/-- `config.ParamGroup` (config.go:379). -/
structure ParamGroup where
  name : String
  params : List Param
deriving DecidableEq

/-- `config.TimeoutCfg` inlined into `config.HTTP` (config.go:94,110). -/
structure HTTPCfg where
  listenAddr : String
  readTimeout : Nat
  writeTimeout : Nat
  idleTimeout : Nat
deriving DecidableEq

/-- `config.Server` (config.go:76). -/
structure ServerCfg where
  http : HTTPCfg
deriving DecidableEq

/-- `config.Config` (config.go:26). -/
structure Cfg where
  server : ServerCfg
  clusters : List Cluster
  users : List UserCfg
  logDebug : Bool
  caches : List CacheCfg
  paramGroups : List ParamGroup
deriving DecidableEq

/-- `config.defaultClusterUser` (config.go:20): only the name is set, so
the password is empty and every limit is zero. -/
def defaultClusterUser : ClusterUser :=
  { name := "default", password := "", maxConcurrentQueries := 0,
    maxExecutionTime := 0, reqPerMin := 0, maxQueueSize := 0, maxQueueTime := 0 }

/-- `config.defaultCluster` (config.go:16): zero value except for the
single default cluster user. -/
def defaultCluster : Cluster :=
  { name := "", nodes := [], replicas := [], clusterUsers := [defaultClusterUser],
    killQueryUser := { name := "", password := "" }, heartBeatInterval := 0 }

/-! YAML documents. A `Raw*` record stands for the YAML mapping that
gopkg.in/yaml.v2 would decode into the corresponding Go struct: `none`
means the key is absent (yaml.v2 then leaves the Go field at its previous
value — for chproxy, the value assigned by `*c = default…` before
`unmarshal` runs), `some v` that it is present with value `v`. The `xxx`
field holds the keys that the inline `XXX` catch-all would collect. Raw
duration fields carry already-parsed nanosecond values (the string level
is covered by `parseDuration`); the raw cache `max_size` stays a string
because `ByteSize` parsing is part of loading. -/

/-- YAML document for a `ClusterUser`. -/
structure RawClusterUser where
  name : Option String := none
  password : Option String := none
  maxConcurrentQueries : Option Nat := none
  maxExecutionTime : Option Nat := none
  reqPerMin : Option Nat := none
  maxQueueSize : Option Nat := none
  maxQueueTime : Option Nat := none
  xxx : List String := []
deriving DecidableEq

/-- YAML document for a `Replica`. -/
structure RawReplica where
  name : Option String := none
  nodes : Option (List String) := none
  xxx : List String := []
deriving DecidableEq

/-- YAML document for a `KillQueryUser`. -/
structure RawKillQueryUser where
  name : Option String := none
  password : Option String := none
  xxx : List String := []
deriving DecidableEq

/-- YAML document for a `Cluster`. -/
structure RawCluster where
  name : Option String := none
  nodes : Option (List String) := none
  replicas : Option (List RawReplica) := none
  users : Option (List RawClusterUser) := none
  killQueryUser : Option RawKillQueryUser := none
  heartBeatInterval : Option Nat := none
  xxx : List String := []
deriving DecidableEq

/-- YAML document for a `User`. -/
structure RawUser where
  name : Option String := none
  password : Option String := none
  toCluster : Option String := none
  toUser : Option String := none
  maxConcurrentQueries : Option Nat := none
  maxExecutionTime : Option Nat := none
  reqPerMin : Option Nat := none
  maxQueueSize : Option Nat := none
  maxQueueTime : Option Nat := none
  denyHTTP : Option Bool := none
  denyHTTPS : Option Bool := none
  allowCORS : Option Bool := none
  cache : Option String := none
  params : Option String := none
  xxx : List String := []
deriving DecidableEq

/-- YAML document for a `Cache`. -/
structure RawCache where
  name : Option String := none
  dir : Option String := none
  maxSize : Option String := none
  expire : Option Nat := none
  graceTime : Option Nat := none
  xxx : List String := []
deriving DecidableEq

/-- YAML document for a `ParamGroup`. -/
structure RawParamGroup where
  name : Option String := none
  params : Option (List Param) := none
  xxx : List String := []
deriving DecidableEq

/-- YAML document for `HTTP`. -/
structure RawHTTP where
  listenAddr : Option String := none
  readTimeout : Option Nat := none
  writeTimeout : Option Nat := none
  idleTimeout : Option Nat := none
  xxx : List String := []
deriving DecidableEq

/-- YAML document for `Server`. -/
structure RawServer where
  http : Option RawHTTP := none
  xxx : List String := []
deriving DecidableEq

/-- A whole YAML configuration document. -/
structure RawConfig where
  server : Option RawServer := none
  clusters : Option (List RawCluster) := none
  users : Option (List RawUser) := none
  logDebug : Option Bool := none
  caches : Option (List RawCache) := none
  paramGroups : Option (List RawParamGroup) := none
  xxx : List String := []
deriving DecidableEq

/-- `checkOverflow` (used throughout config.go): any collected unknown key
fails decoding, with the message observed in TestBadConfig. -/
def checkOverflow (xxx : List String) (ctx : String) : Except String Unit :=
  match xxx with
  | [] => .ok ()
  | ks => .error ("unknown fields in " ++ ctx ++ ": " ++ String.intercalate ", " ks)

/-- Sequentially decode a list of YAML nodes, stopping at the first error —
yaml.v2 decodes sequence elements in order and propagates the first
failure. -/
def mapExcept (f : α → Except String β) : List α → Except String (List β)
  | [] => .ok []
  | a :: as =>
    match f a with
    | .error e => .error e
    | .ok b =>
      match mapExcept f as with
      | .error e => .error e
      | .ok bs => .ok (b :: bs)

/-- Decode an optional YAML sequence: an absent key keeps the default value
the surrounding struct already holds. -/
def decodeListOpt (f : α → Except String β) (dflt : List β) : Option (List α) → Except String (List β)
  | none => .ok dflt
  | some xs => mapExcept f xs

/-- `ClusterUser.UnmarshalYAML` (config.go:447). -/
def unmarshalClusterUser (raw : RawClusterUser) : Except String ClusterUser :=
  let u : ClusterUser :=
    { name := raw.name.getD "", password := raw.password.getD "",
      maxConcurrentQueries := raw.maxConcurrentQueries.getD 0,
      maxExecutionTime := raw.maxExecutionTime.getD 0,
      reqPerMin := raw.reqPerMin.getD 0,
      maxQueueSize := raw.maxQueueSize.getD 0,
      maxQueueTime := raw.maxQueueTime.getD 0 }
  if u.name.length = 0 then .error "`cluster.user.name` cannot be empty"
  else if u.maxQueueTime > 0 ∧ u.maxQueueSize = 0 then
    .error ("`max_queue_size` must be set if `max_queue_time` is set for " ++ quoteStr u.name)
  else
    match checkOverflow raw.xxx ("cluster.user " ++ quoteStr u.name) with
    | .error e => .error e
    | .ok _ => .ok u

/-- `Replica.UnmarshalYAML` (config.go:208). -/
def unmarshalReplica (raw : RawReplica) : Except String Replica :=
  let r : Replica := { name := raw.name.getD "", nodes := raw.nodes.getD [] }
  if r.name.length = 0 then .error "`replica.name` cannot be empty"
  else if r.nodes.length = 0 then
    .error ("`replica.nodes` cannot be empty for " ++ quoteStr r.name)
  else
    match checkOverflow raw.xxx ("replica " ++ quoteStr r.name) with
    | .error e => .error e
    | .ok _ => .ok r

/-- `KillQueryUser.UnmarshalYAML` (config.go:235). -/
def unmarshalKillQueryUser (raw : RawKillQueryUser) : Except String KillQueryUser :=
  let u : KillQueryUser := { name := raw.name.getD "", password := raw.password.getD "" }
  if u.name.length = 0 then .error "`cluster.kill_query_user.name` must be specified"
  else
    match checkOverflow raw.xxx "kill_query_user" with
    | .error e => .error e
    | .ok _ => .ok u

/-- `Cluster.UnmarshalYAML` (config.go:170): `*c = defaultCluster` (so an
absent `users` key keeps `[defaultClusterUser]`), decode nested values,
then validate name, nodes-xor-replicas, at least one user, and default the
heartbeat interval to 5s when zero. -/
def unmarshalCluster (raw : RawCluster) : Except String Cluster :=
  match decodeListOpt unmarshalReplica [] raw.replicas with
  | .error e => .error e
  | .ok reps =>
  match decodeListOpt unmarshalClusterUser [defaultClusterUser] raw.users with
  | .error e => .error e
  | .ok cus =>
  match (match raw.killQueryUser with
         | none => Except.ok { name := "", password := "" : KillQueryUser }
         | some rk => unmarshalKillQueryUser rk) with
  | .error e => .error e
  | .ok kqu =>
  if (raw.name.getD "").length = 0 then .error "`cluster.name` cannot be empty"
  else if (raw.nodes.getD []).length = 0 ∧ reps.length = 0 then
    .error ("either `cluster.nodes` or `cluster.replicas` must be set for " ++ quoteStr (raw.name.getD ""))
  else if (raw.nodes.getD []).length > 0 ∧ reps.length > 0 then
    .error ("`cluster.nodes` cannot be simultaneously set with `cluster.replicas` for " ++ quoteStr (raw.name.getD ""))
  else if cus.length = 0 then
    .error ("`cluster.users` must contain at least 1 user for " ++ quoteStr (raw.name.getD ""))
  else
    match checkOverflow raw.xxx ("cluster " ++ quoteStr (raw.name.getD "")) with
    | .error e => .error e
    | .ok _ =>
      .ok { name := raw.name.getD "", nodes := raw.nodes.getD [], replicas := reps,
            clusterUsers := cus, killQueryUser := kqu,
            heartBeatInterval := defaultIfZero (raw.heartBeatInterval.getD 0) (5 * secondNs) }

/-- `User.UnmarshalYAML` (config.go:304). -/
def unmarshalUser (raw : RawUser) : Except String UserCfg :=
  let u : UserCfg :=
    { name := raw.name.getD "", password := raw.password.getD "",
      toCluster := raw.toCluster.getD "", toUser := raw.toUser.getD "",
      maxConcurrentQueries := raw.maxConcurrentQueries.getD 0,
      maxExecutionTime := raw.maxExecutionTime.getD 0,
      reqPerMin := raw.reqPerMin.getD 0,
      maxQueueSize := raw.maxQueueSize.getD 0,
      maxQueueTime := raw.maxQueueTime.getD 0,
      denyHTTP := raw.denyHTTP.getD false, denyHTTPS := raw.denyHTTPS.getD false,
      allowCORS := raw.allowCORS.getD false,
      cache := raw.cache.getD "", params := raw.params.getD "" }
  if u.name.length = 0 then .error "`user.name` cannot be empty"
  else if u.toUser.length = 0 then
    .error ("`user.to_user` cannot be empty for " ++ quoteStr u.name)
  else if u.toCluster.length = 0 then
    .error ("`user.to_cluster` cannot be empty for " ++ quoteStr u.name)
  else if u.denyHTTP ∧ u.denyHTTPS then
    .error ("`deny_http` and `deny_https` cannot be simultaneously set to `true` for " ++ quoteStr u.name)
  else if u.maxQueueTime > 0 ∧ u.maxQueueSize = 0 then
    .error ("`max_queue_size` must be set if `max_queue_time` is set for " ++ quoteStr u.name)
  else
    match checkOverflow raw.xxx ("user " ++ quoteStr u.name) with
    | .error e => .error e
    | .ok _ => .ok u

/-- `Cache.UnmarshalYAML` (config.go:360). The `max_size` string is parsed
while decoding (a parse failure aborts the whole load); afterwards a zero
size is rejected — in the Go code `c.MaxSize <= 0` (negative values can
never come out of the parser). -/
def unmarshalCache (raw : RawCache) : Except String CacheCfg :=
  match (match raw.maxSize with
         | none => Except.ok 0
         | some s => byteSizeParse s) with
  | .error e => .error e
  | .ok ms =>
  let c : CacheCfg :=
    { name := raw.name.getD "", dir := raw.dir.getD "", maxSize := ms,
      expire := raw.expire.getD 0, graceTime := raw.graceTime.getD 0 }
  if c.name.length = 0 then .error "`cache.name` must be specified"
  else if c.dir.length = 0 then
    .error ("`cache.dir` must be specified for " ++ quoteStr c.name)
  else if c.maxSize = 0 then
    .error ("`cache.max_size` must be specified for " ++ quoteStr c.name)
  else
    match checkOverflow raw.xxx ("cache " ++ quoteStr c.name) with
    | .error e => .error e
    | .ok _ => .ok c

/-- `ParamGroup.UnmarshalYAML` (config.go:391). -/
def unmarshalParamGroup (raw : RawParamGroup) : Except String ParamGroup :=
  let pg : ParamGroup := { name := raw.name.getD "", params := raw.params.getD [] }
  if pg.name.length = 0 then .error "`param_group.name` must be specified"
  else if pg.params.length = 0 then
    .error "`param_group.params` must contain at least one param"
  else
    match checkOverflow raw.xxx ("param_group " ++ quoteStr pg.name) with
    | .error e => .error e
    | .ok _ => .ok pg

/-- The zero value of the `HTTP` struct: what `Server.HTTP` holds when the
`http` key never gets decoded. -/
def zeroHTTP : HTTPCfg :=
  { listenAddr := "", readTimeout := 0, writeTimeout := 0, idleTimeout := 0 }

/-- `HTTP.UnmarshalYAML` (config.go:121): zero read/idle timeouts default
to 1m and 10m. -/
def unmarshalHTTP (raw : RawHTTP) : Except String HTTPCfg :=
  let h : HTTPCfg :=
    { listenAddr := raw.listenAddr.getD "",
      readTimeout := defaultIfZero (raw.readTimeout.getD 0) minuteNs,
      writeTimeout := raw.writeTimeout.getD 0,
      idleTimeout := defaultIfZero (raw.idleTimeout.getD 0) (10 * minuteNs) }
  match checkOverflow raw.xxx "http" with
  | .error e => .error e
  | .ok _ => .ok h

/-- `Server.UnmarshalYAML` (config.go:85). -/
def unmarshalServer (raw : RawServer) : Except String ServerCfg :=
  match (match raw.http with
         | none => Except.ok zeroHTTP
         | some rh => unmarshalHTTP rh) with
  | .error e => .error e
  | .ok h =>
    match checkOverflow raw.xxx "server" with
    | .error e => .error e
    | .ok _ => .ok { http := h }

/-- `Config.UnmarshalYAML` (config.go:54): `*c = defaultConfig` (so an
absent `clusters` key keeps `[defaultCluster]` and an absent `users` key
keeps the empty list), decode nested values, then require at least one
user, at least one cluster and a configured listen address. -/
def unmarshalConfig (raw : RawConfig) : Except String Cfg :=
  match (match raw.server with
         | none => Except.ok { http := zeroHTTP : ServerCfg }
         | some rs => unmarshalServer rs) with
  | .error e => .error e
  | .ok server =>
  match decodeListOpt unmarshalCluster [defaultCluster] raw.clusters with
  | .error e => .error e
  | .ok clusters =>
  match decodeListOpt unmarshalUser [] raw.users with
  | .error e => .error e
  | .ok users =>
  match decodeListOpt unmarshalCache [] raw.caches with
  | .error e => .error e
  | .ok caches =>
  match decodeListOpt unmarshalParamGroup [] raw.paramGroups with
  | .error e => .error e
  | .ok pgs =>
  if users.length = 0 then .error "`users` must contain at least 1 user"
  else if clusters.length = 0 then .error "`clusters` must contain at least 1 cluster"
  else if server.http.listenAddr.length = 0 then .error "HTTP is not configured"
  else
    match checkOverflow raw.xxx "config" with
    | .error e => .error e
    | .ok _ =>
      .ok { server, clusters, users, logDebug := raw.logDebug.getD false,
            caches, paramGroups := pgs }

/-- The limit a user contributes to the write-timeout bound
(`MaxExecutionTime + MaxQueueTime`, LoadFile's loop bodies). -/
def userDelay (u : UserCfg) : Nat := u.maxExecutionTime + u.maxQueueTime

/-- Same bound for a cluster user. -/
def clusterUserDelay (u : ClusterUser) : Nat := u.maxExecutionTime + u.maxQueueTime

/-- The `maxResponseTime` computed by `LoadFile` (config.go:475-492):
running maximum, over all cluster users and then all users, of
`MaxExecutionTime + MaxQueueTime`, starting from zero. (The Go guard
`maxResponseTime < 0` can never fire for durations produced by
`parseDuration`, which are non-negative; the model uses `Nat`.) -/
def maxResponseTimeNs (cfg : Cfg) : Nat :=
  cfg.users.foldl (fun a u => max a (userDelay u))
    (cfg.clusters.foldl
      (fun acc c => c.clusterUsers.foldl (fun a u => max a (clusterUserDelay u)) acc) 0)

/-- `config.LoadFile` (config.go:465) after the file has been read and the
YAML document parsed: unmarshal the document, then, when a listen address
is configured and no write timeout was given, set the write timeout to
`maxResponseTime` plus one minute. -/
def loadConfigFromRaw (raw : RawConfig) : Except String Cfg :=
  match unmarshalConfig raw with
  | .error e => .error e
  | .ok cfg =>
    if cfg.server.http.listenAddr.length > 0 ∧ cfg.server.http.writeTimeout = 0 then
      .ok { cfg with server :=
              { cfg.server with http :=
                  { cfg.server.http with writeTimeout := maxResponseTimeNs cfg + minuteNs } } }
    else .ok cfg

/-! ### Config application and hot reload (`main.go`) -/

/-- The mutable state of the process-wide proxy: the currently applied
configuration snapshot (`none` before the first successful apply). -/
structure ProxyState where
  applied : Option Cfg
deriving DecidableEq

/-- Modelled from the spec: the validation done by `proxy.applyConfig`
(the proxy implementation is absent from src/). Spec §3/§9: each user's
`ToCluster` must resolve to a configured cluster and `ToUser` to one of
that cluster's users. -/
def resolveUser (cfg : Cfg) (u : UserCfg) : Except String Unit :=
  match cfg.clusters.find? (fun c => c.name == u.toCluster) with
  | none => .error ("cluster " ++ quoteStr u.toCluster ++ " is not found")
  | some c =>
    match c.clusterUsers.find? (fun cu => cu.name == u.toUser) with
    | none => .error ("cluster user " ++ quoteStr u.toUser ++ " is not found")
    | some _ => .ok ()

/-- Modelled from the spec: `applyConfig` (main.go:152 delegating to the
absent `proxy.applyConfig`): build the new snapshot, and only on success
swap it in atomically (spec §4.6: "The publication is a single atomic swap
of the snapshot pointer"); on failure the old snapshot stays. -/
def applyConfig (cfg : Cfg) (st : ProxyState) : Except String Unit × ProxyState :=
  match mapExcept (resolveUser cfg) cfg.users with
  | .error e => (.error e, st)
  | .ok _ => (.ok (), { applied := some cfg })

/-- `reloadConfig` (main.go:163): load the configuration, return the error
without touching the proxy when loading fails, otherwise apply it. The raw
document stands for the current contents of the `-config` file. -/
def reloadConfig (raw : RawConfig) (st : ProxyState) : Except String Unit × ProxyState :=
  match loadConfigFromRaw raw with
  | .error e => (.error e, st)
  | .ok cfg => applyConfig cfg st

/-- What one iteration of the SIGHUP goroutine does to the process. -/
structure HandlerOutcome where
  terminated : Bool
  state : ProxyState
deriving DecidableEq

/-- One iteration of the SIGHUP handler loop (main.go:47-59): run
`reloadConfig`; on error, `log.Errorf` (which does not exit) and
`continue`; on success, log and keep looping. Neither branch terminates
the process. -/
def sighupStep (raw : RawConfig) (st : ProxyState) : HandlerOutcome :=
  match reloadConfig raw st with
  | (.error _, st2) => { terminated := false, state := st2 }
  | (.ok _, st2) => { terminated := false, state := st2 }

/-! ### HTTP dispatch (`main.go:serveHTTP`) -/

/-- The parts of an incoming `http.Request` that `serveHTTP` inspects. -/
structure Request where
  method : String
  path : String
  remoteAddr : String
deriving DecidableEq

/-- An HTTP response as produced by the dispatcher: Go's `ResponseWriter`
defaults to status 200 and an empty body when the handler just returns. -/
structure HttpResponse where
  status : Nat
  headers : List (String × String)
  body : String
deriving DecidableEq

/-- Result of `serveHTTP`: either a response written by the dispatcher
itself, or the request handed to `proxy.ServeHTTP` (path `/`) or to the
Prometheus handler (path `/metrics`), both outside src/. -/
inductive Handled where
  | response (resp : HttpResponse)
  | proxied (r : Request)
  | metrics (r : Request)
deriving DecidableEq

/-- Modelled from the spec: `respondWith` (absent from src/) writes the
given status code and the error text as the body (spec §8 S2/S3: the body
contains the formatted error). -/
def respondWith (headers : List (String × String)) (msg : String) (status : Nat) : HttpResponse :=
  { status := status, headers := headers, body := msg }

/-- The path switch of `serveHTTP` (main.go:123-136), reached only for GET
and POST: `/favicon.ico` returns the empty 200, `/metrics` and `/` hand
off, and everything else is a 400 with `Connection: close`. -/
def pathDispatch (r : Request) : Handled :=
  if r.path = "/favicon.ico" then .response { status := 200, headers := [], body := "" }
  else if r.path = "/metrics" then .metrics r
  else if r.path = "/" then .proxied r
  else
    .response (respondWith [("Connection", "close")]
      (quoteStr r.remoteAddr ++ ": unsupported path: " ++ quoteStr r.path) 400)

/-- `serveHTTP` (main.go:108): the method switch, falling through to the
path switch for GET and POST. -/
def serveHTTP (r : Request) : Handled :=
  if r.method = "GET" ∨ r.method = "POST" then pathDispatch r
  else if r.method = "OPTIONS" then
    .response { status := 200, headers := [("Allow", "GET,POST")], body := "" }
  else
    .response (respondWith [("Connection", "close")]
      (quoteStr r.remoteAddr ++ ": unsupported method " ++ quoteStr r.method) 405)

/-- `needle` occurs contiguously inside `hay` (the "body contains" of the
spec's scenarios). -/
def strContains (needle hay : String) : Prop :=
  ∃ pre post : List Char, hay.data = pre ++ needle.data ++ post

/-! ### Concrete documents and their loaded configurations

Used as concrete instances in the theorems below. -/

/-- An `http` section with just a listen address. -/
def rawHTTPplain : RawHTTP := { listenAddr := some ":8080" }

/-- A `server` section wrapping `rawHTTPplain`. -/
def rawServerPlain : RawServer := { http := some rawHTTPplain }

/-- The `users` entry `{name: default, to_cluster: cluster, to_user: default}`. -/
def rawUserDefault : RawUser :=
  { name := some "default", toCluster := some "cluster", toUser := some "default" }

/-- The proxy user `rawUserDefault` decodes to. -/
def userDefault : UserCfg :=
  { name := "default", password := "", toCluster := "cluster", toUser := "default",
    maxConcurrentQueries := 0, maxExecutionTime := 0, reqPerMin := 0,
    maxQueueSize := 0, maxQueueTime := 0, denyHTTP := false, denyHTTPS := false,
    allowCORS := false, cache := "", params := "" }

/-- A minimal cluster document: name, one node, one user named default. -/
def rawClusterHB : RawCluster :=
  { name := some "cluster", nodes := some ["127.0.0.1:8123"],
    users := some [{ name := some "default" }] }

/-- The cluster `rawClusterHB` decodes to (5s heartbeat default applied). -/
def clusterHB : Cluster :=
  { name := "cluster", nodes := ["127.0.0.1:8123"], replicas := [],
    clusterUsers := [defaultClusterUser],
    killQueryUser := { name := "", password := "" },
    heartBeatInterval := 5 * secondNs }

/-- A cluster document whose `users` key is entirely absent. -/
def rawClusterNoUsers : RawCluster :=
  { name := some "c2", nodes := some ["n1:8123"] }

/-- The cluster `rawClusterNoUsers` decodes to: it gets the default user. -/
def clusterNoUsers : Cluster :=
  { name := "c2", nodes := ["n1:8123"], replicas := [],
    clusterUsers := [defaultClusterUser],
    killQueryUser := { name := "", password := "" },
    heartBeatInterval := 5 * secondNs }

/-- A cluster document with a 10-minute `max_execution_time` cluster user. -/
def rawClusterLim : RawCluster :=
  { name := some "cluster", nodes := some ["127.0.0.1:8123"],
    users := some [{ name := some "default", maxExecutionTime := some (10 * minuteNs) }] }

/-- The cluster user of `rawClusterLim` after decoding. -/
def clusterUserLim : ClusterUser :=
  { name := "default", password := "", maxConcurrentQueries := 0,
    maxExecutionTime := 10 * minuteNs, reqPerMin := 0, maxQueueSize := 0,
    maxQueueTime := 0 }

/-- The cluster `rawClusterLim` decodes to. -/
def clusterLim : Cluster :=
  { name := "cluster", nodes := ["127.0.0.1:8123"], replicas := [],
    clusterUsers := [clusterUserLim],
    killQueryUser := { name := "", password := "" },
    heartBeatInterval := 5 * secondNs }

/-- A minimal valid document: listen address, one cluster, one user. -/
def docMinimal : RawConfig :=
  { server := some rawServerPlain, clusters := some [rawClusterHB],
    users := some [rawUserDefault] }

/-- The defaulted timeouts every accepted plain-`:8080` document gets:
read 1m, write 1m, idle 10m. -/
def httpDefaulted : HTTPCfg :=
  { listenAddr := ":8080", readTimeout := minuteNs, writeTimeout := minuteNs,
    idleTimeout := 10 * minuteNs }

/-- The configuration `docMinimal` loads to: the TestLoadConfig "default
values" shape — 1m/1m/10m timeouts, 5s heartbeat. -/
def cfgMinimal : Cfg :=
  { server := { http := httpDefaulted },
    clusters := [clusterHB], users := [userDefault],
    logDebug := false, caches := [], paramGroups := [] }

/-- A document like `docMinimal` but whose `clusters` key is absent. -/
def docNoClusters : RawConfig :=
  { server := some rawServerPlain, users := some [rawUserDefault] }

/-- What `docNoClusters` loads to: the `defaultConfig` placeholder cluster
survives validation untouched. -/
def cfgNoClusters : Cfg :=
  { server := { http := httpDefaulted },
    clusters := [defaultCluster], users := [userDefault],
    logDebug := false, caches := [], paramGroups := [] }

/-- A document with one 10-minute execution-time limit. -/
def docTimeouts : RawConfig :=
  { server := some rawServerPlain, clusters := some [rawClusterLim],
    users := some [rawUserDefault] }

/-- Timeouts after the write-timeout calculation for `docTimeouts`. -/
def httpCalculated : HTTPCfg :=
  { listenAddr := ":8080", readTimeout := minuteNs, writeTimeout := 11 * minuteNs,
    idleTimeout := 10 * minuteNs }

/-- The configuration `docTimeouts` loads to: write timeout 10m + 1m. -/
def cfgTimeouts : Cfg :=
  { server := { http := httpCalculated },
    clusters := [clusterLim], users := [userDefault],
    logDebug := false, caches := [], paramGroups := [] }

/-- A bad cluster document with both `nodes` and `replicas` set. -/
def rawClusterBoth : RawCluster :=
  { name := some "c", nodes := some ["n"],
    replicas := some [{ name := some "r", nodes := some ["x"] }] }

/-- A bad cluster document with neither `nodes` nor `replicas`. -/
def rawClusterNeither : RawCluster := { name := some "c" }

/-- A bad cluster document with an explicitly empty `users` list. -/
def rawClusterEmptyUsers : RawCluster :=
  { name := some "c", nodes := some ["n"], users := some [] }

end Chproxy

namespace Chproxy

theorem digitVal_digitChar {n : Nat} (h : n < 10) : digitVal (digitChar n) = n := by
  interval_cases n <;> decide

theorem isDigit_digitChar {n : Nat} (h : n < 10) : (digitChar n).isDigit = true := by
  interval_cases n <;> decide

theorem natDigitsRevF_zero (fuel : Nat) : natDigitsRevF fuel 0 = [] := by
  cases fuel <;> simp [natDigitsRevF]

theorem natDigitsRevF_all_isDigit (n : Nat) :
    ∀ fuel, ∀ c ∈ natDigitsRevF fuel n, c.isDigit = true := by
  induction n using Nat.strong_induction_on with
  | _ n ih =>
    intro fuel c hc
    match n, fuel with
    | _, 0 => simp [natDigitsRevF] at hc
    | 0, f + 1 => rw [natDigitsRevF_zero] at hc; simp at hc
    | m + 1, f + 1 =>
      rw [natDigitsRevF, if_neg (Nat.succ_ne_zero m)] at hc
      rcases List.mem_cons.mp hc with rfl | hc
      · exact isDigit_digitChar (Nat.mod_lt _ (by decide))
      · exact ih ((m + 1) / 10) (Nat.div_lt_self (Nat.succ_pos m) (by decide)) f c hc

theorem natDigitsRevF_ne_nil {n fuel : Nat} (h : n ≠ 0) (hf : n ≤ fuel) :
    natDigitsRevF fuel n ≠ [] := by
  match n, fuel, h with
  | m + 1, f + 1, _ =>
    rw [natDigitsRevF, if_neg (Nat.succ_ne_zero m)]
    exact List.cons_ne_nil _ _

theorem digitsVal_append_singleton (l : List Char) (c : Char) :
    digitsVal (l ++ [c]) = 10 * digitsVal l + digitVal c := by
  simp [digitsVal, List.foldl_append]

theorem digitsVal_reverse_natDigitsRevF (n : Nat) :
    ∀ fuel, n ≤ fuel → digitsVal (natDigitsRevF fuel n).reverse = n := by
  induction n using Nat.strong_induction_on with
  | _ n ih =>
    intro fuel hf
    match n, fuel with
    | 0, fuel => rw [natDigitsRevF_zero]; rfl
    | m + 1, f + 1 =>
      have hlt : (m + 1) / 10 < m + 1 := Nat.div_lt_self (Nat.succ_pos m) (by decide)
      rw [natDigitsRevF, if_neg (Nat.succ_ne_zero m), List.reverse_cons,
        digitsVal_append_singleton, ih ((m + 1) / 10) hlt f (by omega),
        digitVal_digitChar (Nat.mod_lt _ (by decide))]
      omega

theorem natRepr_all_isDigit (n : Nat) : ∀ c ∈ natRepr n, c.isDigit = true := by
  intro c hc
  rw [natRepr] at hc
  split at hc
  · simp at hc; subst hc; decide
  · exact natDigitsRevF_all_isDigit n n c (List.mem_reverse.mp hc)

theorem natRepr_ne_nil (n : Nat) : natRepr n ≠ [] := by
  rw [natRepr]
  split
  · exact List.cons_ne_nil _ _
  · intro h
    exact natDigitsRevF_ne_nil (by assumption) (Nat.le_refl n)
      (by simpa using List.reverse_eq_nil_iff.mp h)

theorem digitsVal_natRepr (n : Nat) : digitsVal (natRepr n) = n := by
  rw [natRepr]
  split
  · simp_all [digitsVal, digitVal]
  · exact digitsVal_reverse_natDigitsRevF n n (Nat.le_refl n)

theorem takeWhile_append_of_all {p : Char → Bool} {l u : List Char}
    (hl : ∀ c ∈ l, p c = true) (hu : ∀ c, u.head? = some c → p c = false) :
    (l ++ u).takeWhile p = l ∧ (l ++ u).dropWhile p = u := by
  induction l with
  | nil =>
    simp only [List.nil_append]
    cases u with
    | nil => simp
    | cons c rest =>
      have hc := hu c rfl
      simp [List.takeWhile, List.dropWhile, hc]
  | cons a l ih =>
    have ha : p a = true := hl a (List.mem_cons_self a l)
    have ihr := ih (fun c hc => hl c (List.mem_cons_of_mem a hc))
    simp [List.takeWhile, List.dropWhile, ha, ihr.1, ihr.2]

theorem mem_takeWhile_sat {p : Char → Bool} :
    ∀ {l : List Char}, ∀ c ∈ l.takeWhile p, p c = true := by
  intro l
  induction l with
  | nil => intro c hc; simp at hc
  | cons a l ih =>
    intro c hc
    rw [List.takeWhile] at hc
    cases hpa : p a with
    | false => rw [hpa] at hc; simp at hc
    | true =>
      rw [hpa] at hc
      rcases List.mem_cons.mp hc with rfl | hc
      · exact hpa
      · exact ih c hc

theorem lookup_isSome_mem {β : Type} (u : List Char) :
    ∀ t : List (List Char × β), (List.lookup u t).isSome = true → ∃ p ∈ t, u = p.1 := by
  intro t
  induction t with
  | nil => intro h; simp [List.lookup] at h
  | cons kv t ih =>
    intro h
    rw [List.lookup] at h
    by_cases hk : u == kv.1
    · exact ⟨kv, List.mem_cons_self _ _, by simpa using hk⟩
    · rw [Bool.eq_false_iff.mpr hk] at h
      obtain ⟨p, hp, hu⟩ := ih h
      exact ⟨p, List.mem_cons_of_mem _ hp, hu⟩

/-- Parsing a decimal numeral followed by a unit key of the duration table
yields the numeral times the unit's factor. -/
theorem parseDuration_mk_append (q : Nat) (u : List Char) (f : Nat)
    (hhead : ∀ c, u.head? = some c → c.isDigit = false)
    (hlookup : List.lookup u unitTable = some f) :
    parseDuration (String.mk (natRepr q ++ u)) = .ok (q * f) := by
  have hsplit := takeWhile_append_of_all (natRepr_all_isDigit q) hhead
  rw [parseDuration]
  have hdata : (String.mk (natRepr q ++ u)).data = natRepr q ++ u := rfl
  simp only [hdata, hsplit.1, hsplit.2, hlookup,
    List.isEmpty_iff, digitsVal_natRepr]
  rw [if_neg (natRepr_ne_nil q)]

/-- The unit picked by `durationUnit` divides the value, starts with a
non-digit character, and is a key of the duration table bound to its own
factor. -/
theorem durationUnit_spec (v : Nat) :
    (durationUnit v).2 ∣ v ∧
    (∀ c, (durationUnit v).1.head? = some c → c.isDigit = false) ∧
    List.lookup (durationUnit v).1 unitTable = some (durationUnit v).2 := by
  rw [durationUnit]
  split_ifs with h1 h2 h3 h4 h5 h6 h7 <;>
    exact ⟨by first | exact Nat.dvd_of_mod_eq_zero (by assumption) | exact one_dvd v,
      by intro c hc; cases hc; decide, by decide⟩

end Chproxy

namespace Chproxy

/-- **C4.** `parseDuration` succeeds exactly on the strings made of a
non-empty run of decimal digits immediately followed by one of the units
ns, µs, ms, s, m, h, d, w (with `d` = 24h and `w` = 7d via the factors of
`unitTable`), returning the digits' value times the unit factor, and
rejects every other string — no unit, space before the unit, unknown or
composite unit, fractional value — with the error
`not a valid duration string: "<s>"`; in particular it rejects the
TestParseDurationNegative vectors with exactly those messages. -/
theorem parseDuration_grammar (s : String) :
    ((∃ ds u, s.data = ds ++ u ∧ ds ≠ [] ∧ (∀ c ∈ ds, c.isDigit = true) ∧
        (List.lookup u unitTable).isSome = true) ↔ (∃ v, parseDuration s = .ok v)) ∧
    ((∀ ds u, s.data = ds ++ u → ds ≠ [] → (∀ c ∈ ds, c.isDigit = true) →
        (List.lookup u unitTable).isSome = false) →
      parseDuration s = .error (durationErrMsg s)) ∧
    (∀ ds u f, s.data = ds ++ u → ds ≠ [] → (∀ c ∈ ds, c.isDigit = true) →
      List.lookup u unitTable = some f → parseDuration s = .ok (digitsVal ds * f)) ∧
    (parseDuration "10" = .error "not a valid duration string: \"10\"" ∧
     parseDuration "20ks" = .error "not a valid duration string: \"20ks\"" ∧
     parseDuration "30Ms" = .error "not a valid duration string: \"30Ms\"" ∧
     parseDuration "40 ms" = .error "not a valid duration string: \"40 ms\"" ∧
     parseDuration "50y" = .error "not a valid duration string: \"50y\"" ∧
     parseDuration "1.5h" = .error "not a valid duration string: \"1.5h\"") := by
  have key : ∀ ds u f, s.data = ds ++ u → ds ≠ [] → (∀ c ∈ ds, c.isDigit = true) →
      List.lookup u unitTable = some f → parseDuration s = .ok (digitsVal ds * f) := by
    intro ds u f hdata hne hdig hlook
    have hhead : ∀ c, u.head? = some c → c.isDigit = false := by
      have hmem := lookup_isSome_mem u unitTable (by rw [hlook]; rfl)
      obtain ⟨p, hp, rfl⟩ := hmem
      simp only [unitTable, List.mem_cons, List.not_mem_nil, or_false] at hp
      rcases hp with rfl | rfl | rfl | rfl | rfl | rfl | rfl | rfl <;>
        (intro c hc; cases hc; decide)
    have hsplit := takeWhile_append_of_all hdig hhead
    rw [parseDuration]
    simp only [hdata, hsplit.1, hsplit.2, hlook, List.isEmpty_iff]
    rw [if_neg hne]
  refine ⟨⟨?_, ?_⟩, ?_, key, by decide⟩
  · rintro ⟨ds, u, hdata, hne, hdig, hsome⟩
    obtain ⟨f, hf⟩ := Option.isSome_iff_exists.mp hsome
    exact ⟨digitsVal ds * f, key ds u f hdata hne hdig hf⟩
  · rintro ⟨v, hv⟩
    rw [parseDuration] at hv
    by_cases hemp : (s.data.takeWhile Char.isDigit).isEmpty = true
    · rw [if_pos hemp] at hv; exact Except.noConfusion hv
    · rw [if_neg hemp] at hv
      refine ⟨s.data.takeWhile Char.isDigit, s.data.dropWhile Char.isDigit,
        (List.takeWhile_append_dropWhile Char.isDigit s.data).symm,
        by simpa [List.isEmpty_iff] using hemp,
        fun c hc => mem_takeWhile_sat c hc, ?_⟩
      cases hlk : List.lookup (s.data.dropWhile Char.isDigit) unitTable with
      | none => rw [hlk] at hv; exact Except.noConfusion hv
      | some f => rfl
  · intro hall
    rw [parseDuration]
    by_cases hemp : (s.data.takeWhile Char.isDigit).isEmpty = true
    · rw [if_pos hemp]
    · rw [if_neg hemp]
      have hne : s.data.takeWhile Char.isDigit ≠ [] := by
        simpa [List.isEmpty_iff] using hemp
      have hforall := hall (s.data.takeWhile Char.isDigit) (s.data.dropWhile Char.isDigit)
        (List.takeWhile_append_dropWhile Char.isDigit s.data).symm hne
        (fun c hc => mem_takeWhile_sat c hc)
      cases hlk : List.lookup (s.data.dropWhile Char.isDigit) unitTable with
      | none => rfl
      | some f => rw [hlk] at hforall; exact absurd hforall (by simp)

/-- **C4 witness.** `40s` matches the grammar and parses to 40 seconds;
the grammar characterization applied at a concrete string. -/
theorem parseDuration_grammar_witness :
    parseDuration "40s" = .ok (digitsVal ['4', '0'] * secondNs) ∧
    parseDuration "40s" = .ok 40000000000 :=
  ⟨(parseDuration_grammar "40s").2.2.1 ['4', '0'] ['s'] secondNs (by decide)
      (by decide) (by decide) (by decide),
    by decide⟩

/-- **C5 counterexample.** Duration format∘parse is not the identity on
the accepted grammar: `"7d"` is accepted and parses to the same value as
`"1w"`, and `Duration.String` prints that value as `"1w"`, not `"7d"` (no
formatter can return both, since the two strings parse equal). -/
theorem duration_format_not_identity :
    parseDuration "7d" = .ok (7 * dayNs) ∧ parseDuration "1w" = .ok (7 * dayNs) ∧
    durationString (7 * dayNs) = "1w" ∧ ("7d" : String) ≠ "1w" := by
  refine ⟨by decide, by decide, ?_, by decide⟩
  decide

/-- **C5 (amended).** Duration parse→format→parse is the identity at the
value level: for every accepted string `s`, formatting the parsed value
and re-parsing yields exactly the value parsed from `s` (the printed
string itself may be a different spelling of the same duration, e.g.
`"7d"` prints as `"1w"`). -/
theorem duration_parse_format_parse (s : String) (v : Nat)
    (h : parseDuration s = .ok v) :
    parseDuration (durationString v) = .ok v ∧
    parseDuration (durationString v) = parseDuration s := by
  obtain ⟨hdvd, hhead, hlookup⟩ := durationUnit_spec v
  have hrt := parseDuration_mk_append (v / (durationUnit v).2) (durationUnit v).1
    (durationUnit v).2 hhead hlookup
  rw [durationString]
  exact ⟨by rw [hrt, Nat.div_mul_cancel hdvd],
    by rw [hrt, Nat.div_mul_cancel hdvd, h]⟩

/-- **C5 witness.** The amended round trip at `"75d"`: parsing gives 75
days, and re-parsing the formatted value gives 75 days again. -/
theorem duration_parse_format_parse_witness :
    parseDuration (durationString 6480000000000000) = .ok 6480000000000000 :=
  (duration_parse_format_parse "75d" 6480000000000000 (by decide)).1

/-- Parsing a decimal numeral followed by a non-digit, non-dot suffix of
the byte-size table yields the numeral times the suffix factor. -/
theorem byteSizeParse_mk_append (n : Nat) (u : List Char) (f : Nat)
    (hhead : ∀ c, u.head? = some c → c.isDigit = false)
    (hdot : ¬u.head? = some '.')
    (hlookup : List.lookup u byteUnitTable = some f) :
    byteSizeParse (String.mk (natRepr n ++ u)) = .ok (n * f) := by
  have hsplit := takeWhile_append_of_all (natRepr_all_isDigit n) hhead
  rw [byteSizeParse]
  have hdata : (String.mk (natRepr n ++ u)).data = natRepr n ++ u := rfl
  simp only [hdata, hsplit.1, hsplit.2, List.isEmpty_iff]
  rw [if_neg (natRepr_ne_nil n), if_neg hdot]
  simp only [hlookup, digitsVal_natRepr]

/-- Any byte-size string starting with `-` fails the digits test and is
rejected with the TestBadConfig message. -/
theorem byteSizeParse_minus (s : String) (h : s.data.head? = some '-') :
    byteSizeParse s = .error (byteSizeErrMsg s) := by
  rw [byteSizeParse]
  cases hd : s.data with
  | nil => rw [hd] at h; exact Option.noConfusion h
  | cons c rest =>
    rw [hd] at h
    have hc : c = '-' := by cases h; rfl
    subst hc
    simp [List.takeWhile, show Char.isDigit '-' = false from by decide]

end Chproxy

namespace Chproxy

/-- **C6.** Byte-size values accept the suffixes B/K/M/G/T with
decimal-prefix meaning (K = 10^3, M = 10^6, G = 10^9, T = 10^12): parsing
`<decimal>` followed by such a suffix yields the number times the factor;
any negative byte size (a string starting with `-`) is rejected by the
parser, and — at configuration load time — makes `Cache.UnmarshalYAML`
fail with that parse error, as in TestBadConfig's `-10B` case. -/
theorem byteSize_spec :
    (∀ n u f,
        (u, f) ∈ [(['B'], 1), (['K'], 1000), (['M'], 1000000),
                  (['G'], 1000000000), (['T'], 1000000000000)] →
        byteSizeParse (String.mk (natRepr n ++ u)) = .ok (n * f)) ∧
    (∀ s : String, s.data.head? = some '-' →
        byteSizeParse s = .error (byteSizeErrMsg s)) ∧
    (∀ (raw : RawCache) (ms : String), raw.maxSize = some ms →
        ms.data.head? = some '-' → unmarshalCache raw = .error (byteSizeErrMsg ms)) ∧
    byteSizeParse "-10B" = .error
      "cannot parse byte size \"-10B\": it must be positive float followed by optional units. For example, 1.5Gb, 3T" := by
  refine ⟨?_, byteSizeParse_minus, ?_, by decide⟩
  · intro n u f hmem
    simp only [List.mem_cons, List.not_mem_nil, or_false, Prod.mk.injEq] at hmem
    rcases hmem with ⟨rfl, rfl⟩ | ⟨rfl, rfl⟩ | ⟨rfl, rfl⟩ | ⟨rfl, rfl⟩ | ⟨rfl, rfl⟩ <;>
      exact byteSizeParse_mk_append n _ _ (by intro c hc; cases hc; decide)
        (by decide) (by decide)
  · intro raw ms hms hminus
    rw [unmarshalCache, hms]
    simp [byteSizeParse_minus ms hminus]

/-- **C6 witness.** The suffix law at `100G` and the rejection of a
negative size string. -/
theorem byteSize_spec_witness :
    byteSizeParse (String.mk (natRepr 100 ++ ['G'])) = .ok (100 * 1000000000) ∧
    byteSizeParse "-5K" = .error (byteSizeErrMsg "-5K") :=
  ⟨byteSize_spec.1 100 ['G'] 1000000000 (by decide),
    byteSize_spec.2.1 "-5K" (by decide)⟩

theorem data_append (a b : String) : (a ++ b).data = a.data ++ b.data := rfl

theorem strContains_intro (needle hay : String) (pre post : List Char)
    (h : hay.data = pre ++ needle.data ++ post) : strContains needle hay :=
  ⟨pre, post, h⟩

end Chproxy

namespace Chproxy

/-- **C2.** `serveHTTP`'s method dispatch: GET and POST fall through to the
path switch; OPTIONS is answered with header `Allow: GET,POST`, status 200
and an empty body; every other method gets status 405 with header
`Connection: close` and a body containing `unsupported method "<METHOD>"`. -/
theorem serveHTTP_method_dispatch (r : Request) :
    ((r.method = "GET" ∨ r.method = "POST") → serveHTTP r = pathDispatch r) ∧
    (r.method = "OPTIONS" →
      serveHTTP r = .response { status := 200, headers := [("Allow", "GET,POST")], body := "" }) ∧
    (r.method ≠ "GET" → r.method ≠ "POST" → r.method ≠ "OPTIONS" →
      ∃ body, serveHTTP r =
          .response { status := 405, headers := [("Connection", "close")], body := body } ∧
        strContains ("unsupported method " ++ quoteStr r.method) body) := by
  refine ⟨fun h => by rw [serveHTTP, if_pos h], fun h => ?_, fun hG hP hO => ?_⟩
  · rw [serveHTTP, h, if_neg (by decide), if_pos rfl]
  · rw [serveHTTP, if_neg (not_or.mpr ⟨hG, hP⟩), if_neg hO]
    refine ⟨_, rfl, strContains_intro _ _ (quoteStr r.remoteAddr ++ ": ").data [] ?_⟩
    have hmid : (": unsupported method " : String).data =
        (": " : String).data ++ ("unsupported method " : String).data := by decide
    simp only [respondWith, data_append, hmid, List.append_assoc, List.append_nil]
    rfl

/-- **C2 witness.** The method dispatch at the spec's S1/S2 scenarios:
`OPTIONS` gets the `Allow` response, `CONNECT` the 405 with
`Connection: close` and the `unsupported method "CONNECT"` body. -/
theorem serveHTTP_method_dispatch_witness :
    serveHTTP { method := "OPTIONS", path := "/", remoteAddr := "1.2.3.4:5678" } =
      .response { status := 200, headers := [("Allow", "GET,POST")], body := "" } ∧
    (∃ body, serveHTTP { method := "CONNECT", path := "/", remoteAddr := "1.2.3.4:5678" } =
        .response { status := 405, headers := [("Connection", "close")], body := body } ∧
      strContains ("unsupported method " ++ quoteStr "CONNECT") body) :=
  ⟨(serveHTTP_method_dispatch _).2.1 rfl,
    (serveHTTP_method_dispatch _).2.2 (by decide) (by decide) (by decide)⟩

/-- **C3.** For GET and POST requests, `serveHTTP`'s path dispatch: any
path other than `/`, `/metrics` and `/favicon.ico` gets status 400 with
header `Connection: close` and a body containing
`unsupported path: "<path>"`; `/favicon.ico` gets the empty 200. -/
theorem serveHTTP_path_dispatch (r : Request) (hm : r.method = "GET" ∨ r.method = "POST") :
    (r.path ≠ "/" → r.path ≠ "/metrics" → r.path ≠ "/favicon.ico" →
      ∃ body, serveHTTP r =
          .response { status := 400, headers := [("Connection", "close")], body := body } ∧
        strContains ("unsupported path: " ++ quoteStr r.path) body) ∧
    (r.path = "/favicon.ico" →
      serveHTTP r = .response { status := 200, headers := [], body := "" }) := by
  have hs : serveHTTP r = pathDispatch r := by rw [serveHTTP, if_pos hm]
  refine ⟨fun h1 h2 h3 => ?_, fun h => by rw [hs, pathDispatch, if_pos h]⟩
  rw [hs, pathDispatch, if_neg h3, if_neg h2, if_neg h1]
  refine ⟨_, rfl, strContains_intro _ _ (quoteStr r.remoteAddr ++ ": ").data [] ?_⟩
  have hmid : (": unsupported path: " : String).data =
      (": " : String).data ++ ("unsupported path: " : String).data := by decide
  simp only [respondWith, data_append, hmid, List.append_assoc, List.append_nil]
  rfl

/-- **C3 witness.** The path dispatch at the spec's S3 scenario
(`GET /foobar` → 400) and at `/favicon.ico` (empty 200). -/
theorem serveHTTP_path_dispatch_witness :
    (∃ body, serveHTTP { method := "GET", path := "/foobar", remoteAddr := "1.2.3.4:5678" } =
        .response { status := 400, headers := [("Connection", "close")], body := body } ∧
      strContains ("unsupported path: " ++ quoteStr "/foobar") body) ∧
    serveHTTP { method := "GET", path := "/favicon.ico", remoteAddr := "1.2.3.4:5678" } =
      .response { status := 200, headers := [], body := "" } :=
  ⟨(serveHTTP_path_dispatch _ (Or.inl rfl)).1 (by decide) (by decide) (by decide),
    (serveHTTP_path_dispatch _ (Or.inl rfl)).2 rfl⟩

/-- **C1.** When loading the configuration fails during a hot reload,
`reloadConfig` returns that error without applying anything, so the
previously applied configuration (the proxy state) is untouched; the
SIGHUP handler iteration only logs the error and continues — it leaves
the state unchanged and never terminates the process. -/
theorem reloadConfig_load_error (raw : RawConfig) (st : ProxyState) (e : String)
    (h : loadConfigFromRaw raw = .error e) :
    reloadConfig raw st = (.error e, st) ∧
    sighupStep raw st = { terminated := false, state := st } := by
  have hr : reloadConfig raw st = (.error e, st) := by rw [reloadConfig, h]
  exact ⟨hr, by rw [sighupStep, hr]⟩

/-- **C1 witness.** A document whose `users` list is explicitly empty
fails to load; reloading with it returns the error and keeps the empty
proxy state. -/
theorem reloadConfig_load_error_witness :
    reloadConfig { users := some [] } { applied := none } =
      (.error "`users` must contain at least 1 user", { applied := none }) ∧
    sighupStep { users := some [] } { applied := none } =
      { terminated := false, state := { applied := none } } :=
  reloadConfig_load_error { users := some [] } { applied := none }
    "`users` must contain at least 1 user" (by decide)

theorem mapExcept_ok_mem {α β : Type} (f : α → Except String β) :
    ∀ (l : List α) (res : List β), mapExcept f l = .ok res →
      ∀ b ∈ res, ∃ a ∈ l, f a = .ok b := by
  intro l
  induction l with
  | nil =>
    intro res h b hb
    rw [mapExcept] at h
    cases h
    simp at hb
  | cons a as ih =>
    intro res h b hb
    rw [mapExcept] at h
    split at h
    · exact Except.noConfusion h
    next b0 hfa =>
      split at h
      · exact Except.noConfusion h
      next bs hbs =>
        cases h
        rcases List.mem_cons.mp hb with rfl | hb
        · exact ⟨a, List.mem_cons_self _ _, hfa⟩
        · obtain ⟨a2, ha2, hfa2⟩ := ih bs hbs b hb
          exact ⟨a2, List.mem_cons_of_mem _ ha2, hfa2⟩

theorem mapExcept_ok_length {α β : Type} (f : α → Except String β) :
    ∀ (l : List α) (res : List β), mapExcept f l = .ok res →
      res.length = l.length := by
  intro l
  induction l with
  | nil => intro res h; rw [mapExcept] at h; cases h; rfl
  | cons a as ih =>
    intro res h
    rw [mapExcept] at h
    split at h
    · exact Except.noConfusion h
    · split at h
      · exact Except.noConfusion h
      next bs hbs =>
        cases h
        simp [ih bs hbs]

/-- Success characterization of `Cluster.UnmarshalYAML`: the decoded
pieces, the final field values, and the validation guards that must have
passed. -/
theorem unmarshalCluster_ok (raw : RawCluster) (c : Cluster)
    (h : unmarshalCluster raw = .ok c) :
    ∃ reps cus,
      decodeListOpt unmarshalReplica [] raw.replicas = .ok reps ∧
      decodeListOpt unmarshalClusterUser [defaultClusterUser] raw.users = .ok cus ∧
      c.name = raw.name.getD "" ∧ c.nodes = raw.nodes.getD [] ∧
      c.replicas = reps ∧ c.clusterUsers = cus ∧
      c.heartBeatInterval = defaultIfZero (raw.heartBeatInterval.getD 0) (5 * secondNs) ∧
      c.name.length ≠ 0 ∧
      ¬(c.nodes.length = 0 ∧ reps.length = 0) ∧
      ¬(c.nodes.length > 0 ∧ reps.length > 0) ∧
      cus.length ≠ 0 := by
  rw [unmarshalCluster] at h
  split at h
  · exact Except.noConfusion h
  next reps hreps =>
  split at h
  · exact Except.noConfusion h
  next cus hcus =>
  split at h
  · exact Except.noConfusion h
  next kqu hkqu =>
  split_ifs at h <;> try exact Except.noConfusion h
  split at h
  · exact Except.noConfusion h
  next hover =>
    cases h
    refine ⟨reps, cus, hreps, hcus, rfl, rfl, rfl, rfl, rfl, ?_, ?_, ?_, ?_⟩ <;> assumption

/-- Every cluster produced by `Cluster.UnmarshalYAML` satisfies the
nodes-xor-replicas invariant and has at least one user. -/
theorem unmarshalCluster_invariant (raw : RawCluster) (c : Cluster)
    (h : unmarshalCluster raw = .ok c) :
    ((c.nodes ≠ [] ∧ c.replicas = []) ∨ (c.nodes = [] ∧ c.replicas ≠ [])) ∧
    c.clusterUsers ≠ [] := by
  obtain ⟨reps, cus, _, _, _, _, hreps, hcus, _, _, hxor, hboth, husers⟩ :=
    unmarshalCluster_ok raw c h
  subst hreps; subst hcus
  constructor
  · rcases Nat.eq_zero_or_pos c.nodes.length with hz | hp
    · refine Or.inr ⟨List.length_eq_zero.mp hz, ?_⟩
      intro hrep
      exact hxor ⟨hz, by simp [hrep]⟩
    · refine Or.inl ⟨?_, ?_⟩
      · intro hnil; simp [hnil] at hp
      · have : c.replicas.length = 0 := by
          by_contra hne
          exact hboth ⟨hp, Nat.pos_of_ne_zero hne⟩
        exact List.length_eq_zero.mp this
  · intro hnil
    exact husers (by simp [hnil])

/-- Success characterization of `HTTP.UnmarshalYAML`. -/
theorem unmarshalHTTP_ok (raw : RawHTTP) (h : HTTPCfg)
    (hok : unmarshalHTTP raw = .ok h) :
    h.listenAddr = raw.listenAddr.getD "" ∧
    h.readTimeout = defaultIfZero (raw.readTimeout.getD 0) minuteNs ∧
    h.writeTimeout = raw.writeTimeout.getD 0 ∧
    h.idleTimeout = defaultIfZero (raw.idleTimeout.getD 0) (10 * minuteNs) := by
  rw [unmarshalHTTP] at hok
  split at hok
  · exact Except.noConfusion hok
  next hover =>
  cases hok
  exact ⟨rfl, rfl, rfl, rfl⟩

/-- Success characterization of `Server.UnmarshalYAML`. -/
theorem unmarshalServer_ok (raw : RawServer) (s : ServerCfg)
    (hok : unmarshalServer raw = .ok s) :
    (match raw.http with
     | none => Except.ok zeroHTTP
     | some rh => unmarshalHTTP rh) = .ok s.http := by
  rw [unmarshalServer] at hok
  split at hok
  · exact Except.noConfusion hok
  next hres hhttp =>
  split at hok
  · exact Except.noConfusion hok
  next hover =>
  cases hok
  exact hhttp

/-- Success characterization of `Config.UnmarshalYAML`: the decoded pieces
and the top-level validation guards. -/
theorem unmarshalConfig_ok (raw : RawConfig) (cfg : Cfg)
    (h : unmarshalConfig raw = .ok cfg) :
    ∃ server clusters users,
      (match raw.server with
       | none => Except.ok { http := zeroHTTP : ServerCfg }
       | some rs => unmarshalServer rs) = .ok server ∧
      decodeListOpt unmarshalCluster [defaultCluster] raw.clusters = .ok clusters ∧
      decodeListOpt unmarshalUser [] raw.users = .ok users ∧
      cfg.server = server ∧ cfg.clusters = clusters ∧ cfg.users = users ∧
      users.length ≠ 0 ∧ clusters.length ≠ 0 ∧ server.http.listenAddr.length ≠ 0 := by
  rw [unmarshalConfig] at h
  split at h
  · exact Except.noConfusion h
  next server hserver =>
  split at h
  · exact Except.noConfusion h
  next clusters hclusters =>
  split at h
  · exact Except.noConfusion h
  next users husers =>
  split at h
  · exact Except.noConfusion h
  next caches hcaches =>
  split at h
  · exact Except.noConfusion h
  next pgs hpgs =>
  split_ifs at h <;> try exact Except.noConfusion h
  split at h
  · exact Except.noConfusion h
  next hover =>
    cases h
    refine ⟨server, clusters, users, hserver, hclusters, husers, rfl, rfl, rfl,
      ?_, ?_, ?_⟩ <;> assumption

/-- Success characterization of `LoadFile`'s post-processing step. -/
theorem loadConfigFromRaw_ok (raw : RawConfig) (cfg : Cfg)
    (h : loadConfigFromRaw raw = .ok cfg) :
    ∃ cfg0, unmarshalConfig raw = .ok cfg0 ∧
      cfg.clusters = cfg0.clusters ∧ cfg.users = cfg0.users ∧
      cfg.logDebug = cfg0.logDebug ∧ cfg.caches = cfg0.caches ∧
      cfg.server.http.listenAddr = cfg0.server.http.listenAddr ∧
      cfg.server.http.readTimeout = cfg0.server.http.readTimeout ∧
      cfg.server.http.idleTimeout = cfg0.server.http.idleTimeout ∧
      (cfg0.server.http.listenAddr.length > 0 ∧ cfg0.server.http.writeTimeout = 0 →
        cfg.server.http.writeTimeout = maxResponseTimeNs cfg0 + minuteNs) ∧
      (¬(cfg0.server.http.listenAddr.length > 0 ∧ cfg0.server.http.writeTimeout = 0) →
        cfg.server.http.writeTimeout = cfg0.server.http.writeTimeout) := by
  rw [loadConfigFromRaw] at h
  split at h
  · exact Except.noConfusion h
  rename_i cfg0 hum
  split at h
  · rename_i hcond
    cases h
    exact ⟨cfg0, hum, rfl, rfl, rfl, rfl, rfl, rfl, rfl,
      fun _ => rfl, fun hn => absurd hcond hn⟩
  · rename_i hcond
    cases h
    exact ⟨cfg, hum, rfl, rfl, rfl, rfl, rfl, rfl, rfl,
      fun hc => absurd hc hcond, fun _ => rfl⟩

/-- `maxResponseTime` only looks at the users and clusters of a config. -/
theorem maxResponseTimeNs_congr (a b : Cfg)
    (hu : a.users = b.users) (hc : a.clusters = b.clusters) :
    maxResponseTimeNs a = maxResponseTimeNs b := by
  rw [maxResponseTimeNs, maxResponseTimeNs, hu, hc]

theorem foldl_max_eq_acc {α : Type} (g : α → Nat) :
    ∀ (l : List α) (acc : Nat), (∀ x ∈ l, g x = 0) →
      l.foldl (fun a x => max a (g x)) acc = acc := by
  intro l
  induction l with
  | nil => intro acc _; rfl
  | cons x xs ih =>
    intro acc hz
    rw [List.foldl_cons, hz x (List.mem_cons_self _ _), Nat.max_zero]
    exact ih acc (fun y hy => hz y (List.mem_cons_of_mem _ hy))

/-- With no execution-time or queue-time limits anywhere, the computed
`maxResponseTime` is zero. -/
theorem maxResponseTimeNs_eq_zero (cfg : Cfg)
    (hu : ∀ u ∈ cfg.users, userDelay u = 0)
    (hc : ∀ c ∈ cfg.clusters, ∀ cu ∈ c.clusterUsers, clusterUserDelay cu = 0) :
    maxResponseTimeNs cfg = 0 := by
  rw [maxResponseTimeNs]
  have hinner : cfg.clusters.foldl
      (fun acc c => c.clusterUsers.foldl (fun a u => max a (clusterUserDelay u)) acc) 0 = 0 := by
    have : ∀ (l : List Cluster) (acc : Nat),
        (∀ c ∈ l, ∀ cu ∈ c.clusterUsers, clusterUserDelay cu = 0) →
        l.foldl (fun acc c => c.clusterUsers.foldl (fun a u => max a (clusterUserDelay u)) acc) acc = acc := by
      intro l
      induction l with
      | nil => intro acc _; rfl
      | cons c cs ih =>
        intro acc hz
        rw [List.foldl_cons,
          foldl_max_eq_acc clusterUserDelay c.clusterUsers acc (hz c (List.mem_cons_self _ _))]
        exact ih acc (fun y hy => hz y (List.mem_cons_of_mem _ hy))
    exact this cfg.clusters 0 hc
  rw [hinner]
  exact foldl_max_eq_acc userDelay cfg.users 0 hu

end Chproxy

namespace Chproxy

/-- **C7 (amended).** Every cluster decoded from a document-present
`clusters` entry satisfies: exactly one of nodes and replicas is
non-empty, and the user list is non-empty; a cluster document with both
nodes and replicas set, with neither set, or with an explicitly empty
`users` list is rejected with an error. (The restriction to a present
`clusters` key is forced by the counterexample: with the key absent, the
`defaultConfig` placeholder cluster — no nodes, no replicas — is accepted
by `LoadFile` as-is.) -/
theorem cluster_validation :
    (∀ (raw : RawConfig) (cfg : Cfg) (rcs : List RawCluster),
        loadConfigFromRaw raw = .ok cfg → raw.clusters = some rcs →
        ∀ c ∈ cfg.clusters,
          ((c.nodes ≠ [] ∧ c.replicas = []) ∨ (c.nodes = [] ∧ c.replicas ≠ [])) ∧
          c.clusterUsers ≠ []) ∧
    (∀ raw : RawCluster, raw.nodes.getD [] ≠ [] → raw.replicas.getD [] ≠ [] →
      ∃ e, unmarshalCluster raw = .error e) ∧
    (∀ raw : RawCluster, raw.nodes.getD [] = [] → raw.replicas.getD [] = [] →
      ∃ e, unmarshalCluster raw = .error e) ∧
    (∀ raw : RawCluster, raw.users = some [] →
      ∃ e, unmarshalCluster raw = .error e) := by
  refine ⟨?_, ?_, ?_, ?_⟩
  · intro raw cfg rcs hload hrcs c hc
    obtain ⟨cfg0, hum, hclusters, _⟩ := loadConfigFromRaw_ok raw cfg hload
    obtain ⟨server, clusters, users, _, hdec, _, _, hceq, _⟩ :=
      unmarshalConfig_ok raw cfg0 hum
    rw [hrcs] at hdec
    have hc2 : c ∈ clusters := by rw [hclusters, hceq] at hc; exact hc
    obtain ⟨rc, _, hrc⟩ := mapExcept_ok_mem unmarshalCluster rcs clusters hdec c hc2
    exact unmarshalCluster_invariant rc c hrc
  · intro raw hn hr
    cases hres : unmarshalCluster raw with
    | error e => exact ⟨e, rfl⟩
    | ok c =>
      obtain ⟨reps, cus, hreps, hcus, _, hnodes, _, _, _, _, _, hboth, _⟩ :=
        unmarshalCluster_ok raw c hres
      exfalso
      cases hrep : raw.replicas with
      | none => rw [hrep] at hr; exact hr rfl
      | some rs =>
        rw [hrep] at hreps hr
        have hlen := mapExcept_ok_length unmarshalReplica rs reps hreps
        refine hboth ⟨?_, ?_⟩
        · rw [hnodes]
          exact List.length_pos.mpr hn
        · rw [hlen]
          exact List.length_pos.mpr hr
  · intro raw hn hr
    cases hres : unmarshalCluster raw with
    | error e => exact ⟨e, rfl⟩
    | ok c =>
      obtain ⟨reps, cus, hreps, hcus, _, hnodes, _, _, _, _, hxor, _, _⟩ :=
        unmarshalCluster_ok raw c hres
      exfalso
      refine hxor ⟨?_, ?_⟩
      · rw [hnodes, hn]; rfl
      · cases hrep : raw.replicas with
        | none =>
          rw [hrep] at hreps
          cases hreps
          rfl
        | some rs =>
          rw [hrep] at hreps hr
          subst hr
          cases hreps
          rfl
  · intro raw husers
    cases hres : unmarshalCluster raw with
    | error e => exact ⟨e, rfl⟩
    | ok c =>
      obtain ⟨reps, cus, hreps, hcus, _, _, _, _, _, _, _, _, hcnz⟩ :=
        unmarshalCluster_ok raw c hres
      exfalso
      rw [husers] at hcus
      cases hcus
      exact hcnz rfl

/-- **C7 counterexample.** The claim "every configuration accepted by
LoadFile has, for each cluster, exactly one of nodes and replicas
non-empty" fails: a document without any `clusters` key is accepted, and
its (placeholder) cluster has neither nodes nor replicas. -/
theorem cluster_validation_counterexample :
    loadConfigFromRaw docNoClusters = .ok cfgNoClusters ∧
    cfgNoClusters.clusters = [defaultCluster] ∧
    defaultCluster.nodes = [] ∧ defaultCluster.replicas = [] := by decide

/-- **C7 witness.** The amended invariant at the cluster of `docMinimal`,
and the three rejection clauses at concrete bad cluster documents. -/
theorem cluster_validation_witness :
    (((clusterHB.nodes ≠ [] ∧ clusterHB.replicas = []) ∨
        (clusterHB.nodes = [] ∧ clusterHB.replicas ≠ [])) ∧
      clusterHB.clusterUsers ≠ []) ∧
    (∃ e, unmarshalCluster rawClusterBoth = .error e) ∧
    (∃ e, unmarshalCluster rawClusterNeither = .error e) ∧
    (∃ e, unmarshalCluster rawClusterEmptyUsers = .error e) :=
  ⟨cluster_validation.1 docMinimal cfgMinimal [rawClusterHB] (by decide) (by decide)
      clusterHB (by decide),
    cluster_validation.2.1 rawClusterBoth (by decide) (by decide),
    cluster_validation.2.2.1 rawClusterNeither (by decide) (by decide),
    cluster_validation.2.2.2 rawClusterEmptyUsers (by decide)⟩

/-- **C8.** A cluster whose `heartbeat_interval` is omitted or zero in the
document is loaded with a 5-second heartbeat interval, and a hot reload
applies a configuration produced by exactly the same load function as the
first load (the model's `loadConfigFromRaw` is a pure function of the
document, so the default applies identically in both cases). -/
theorem heartbeat_default :
    (∀ (raw : RawCluster) (c : Cluster), raw.heartBeatInterval.getD 0 = 0 →
        unmarshalCluster raw = .ok c → c.heartBeatInterval = 5 * secondNs) ∧
    (∀ (raw : RawConfig) (st : ProxyState) (cfg : Cfg),
        loadConfigFromRaw raw = .ok cfg → reloadConfig raw st = applyConfig cfg st) := by
  constructor
  · intro raw c hz hok
    obtain ⟨reps, cus, _, _, _, _, _, _, hhb, _⟩ := unmarshalCluster_ok raw c hok
    rw [hhb, defaultIfZero, if_pos hz]
  · intro raw st cfg hload
    rw [reloadConfig, hload]

/-- **C8 witness.** `rawClusterHB` omits the heartbeat and decodes to a
5-second interval; reloading `docMinimal` applies exactly the
first-load configuration. -/
theorem heartbeat_default_witness :
    clusterHB.heartBeatInterval = 5 * secondNs ∧
    reloadConfig docMinimal { applied := none } =
      applyConfig cfgMinimal { applied := none } :=
  ⟨heartbeat_default.1 rawClusterHB clusterHB (by decide) (by decide),
    heartbeat_default.2 docMinimal { applied := none } cfgMinimal (by decide)⟩

/-- **C9.** For an accepted document with a configured listen address:
a zero/absent `write_timeout` becomes `maxResponseTime` (the maximum of
`MaxExecutionTime + MaxQueueTime` over all users and cluster users) plus
one minute — in particular exactly one minute when no such limits are set
anywhere — and zero/absent `read_timeout` and `idle_timeout` default to
one minute and ten minutes respectively. -/
theorem loadFile_timeouts (raw : RawConfig) (cfg : Cfg) (rs : RawServer) (rh : RawHTTP)
    (hload : loadConfigFromRaw raw = .ok cfg)
    (hs : raw.server = some rs) (hh : rs.http = some rh) :
    (rh.writeTimeout.getD 0 = 0 →
      cfg.server.http.writeTimeout = maxResponseTimeNs cfg + minuteNs) ∧
    (rh.readTimeout.getD 0 = 0 → cfg.server.http.readTimeout = minuteNs) ∧
    (rh.idleTimeout.getD 0 = 0 → cfg.server.http.idleTimeout = 10 * minuteNs) ∧
    (rh.writeTimeout.getD 0 = 0 →
      (∀ u ∈ cfg.users, userDelay u = 0) →
      (∀ c ∈ cfg.clusters, ∀ cu ∈ c.clusterUsers, clusterUserDelay cu = 0) →
      cfg.server.http.writeTimeout = minuteNs) := by
  obtain ⟨cfg0, hum, hcl, hus, _, _, hla, hrt, hit, hwpos, hwneg⟩ :=
    loadConfigFromRaw_ok raw cfg hload
  obtain ⟨server, clusters, users, hserver, _, _, hsrv_eq, _, _, _, _, hlen⟩ :=
    unmarshalConfig_ok raw cfg0 hum
  rw [hs] at hserver
  have hhttp := unmarshalServer_ok rs server hserver
  rw [hh] at hhttp
  obtain ⟨hla2, hrt2, hwt2, hit2⟩ := unmarshalHTTP_ok rh server.http hhttp
  have hwrite : ∀ _ : rh.writeTimeout.getD 0 = 0,
      cfg.server.http.writeTimeout = maxResponseTimeNs cfg + minuteNs := by
    intro hwz
    have hcond : cfg0.server.http.listenAddr.length > 0 ∧
        cfg0.server.http.writeTimeout = 0 := by
      constructor
      · rw [hsrv_eq]; exact Nat.pos_of_ne_zero hlen
      · rw [hsrv_eq, hwt2, hwz]
    rw [hwpos hcond, maxResponseTimeNs_congr cfg cfg0 hus hcl]
  refine ⟨hwrite, ?_, ?_, ?_⟩
  · intro hrz
    rw [hrt, hsrv_eq, hrt2, hrz]
    rfl
  · intro hiz
    rw [hit, hsrv_eq, hit2, hiz]
    rfl
  · intro hwz hu hc
    rw [hwrite hwz, maxResponseTimeNs_eq_zero cfg hu hc, Nat.zero_add]

/-- **C9 witness.** `docTimeouts` (one 10m execution limit) loads with
write timeout `maxResponseTime + 1m`; `docMinimal` (no limits) gets read
1m, idle 10m, and write exactly 1m. -/
theorem loadFile_timeouts_witness :
    cfgTimeouts.server.http.writeTimeout = maxResponseTimeNs cfgTimeouts + minuteNs ∧
    cfgMinimal.server.http.readTimeout = minuteNs ∧
    cfgMinimal.server.http.idleTimeout = 10 * minuteNs ∧
    cfgMinimal.server.http.writeTimeout = minuteNs :=
  ⟨(loadFile_timeouts docTimeouts cfgTimeouts rawServerPlain rawHTTPplain
      (by decide) rfl rfl).1 rfl,
    (loadFile_timeouts docMinimal cfgMinimal rawServerPlain rawHTTPplain
      (by decide) rfl rfl).2.1 rfl,
    (loadFile_timeouts docMinimal cfgMinimal rawServerPlain rawHTTPplain
      (by decide) rfl rfl).2.2.1 rfl,
    (loadFile_timeouts docMinimal cfgMinimal rawServerPlain rawHTTPplain
      (by decide) rfl rfl).2.2.2 rfl (by decide) (by decide)⟩

/-- **C10.** A cluster document without any `users` key decodes
successfully and receives the single default cluster user — name
`default`, empty password, every limit zero — and whenever the `users`
key is present, the cluster's users are exactly the decoded document
entries (the default is overwritten). -/
theorem default_cluster_user :
    (∀ (raw : RawCluster) (c : Cluster), raw.users = none →
        unmarshalCluster raw = .ok c → c.clusterUsers = [defaultClusterUser]) ∧
    (defaultClusterUser.name = "default" ∧ defaultClusterUser.password = "" ∧
      defaultClusterUser.maxConcurrentQueries = 0 ∧
      defaultClusterUser.maxExecutionTime = 0 ∧ defaultClusterUser.reqPerMin = 0 ∧
      defaultClusterUser.maxQueueSize = 0 ∧ defaultClusterUser.maxQueueTime = 0) ∧
    (∀ (raw : RawCluster) (rus : List RawClusterUser) (c : Cluster),
        raw.users = some rus → unmarshalCluster raw = .ok c →
        mapExcept unmarshalClusterUser rus = .ok c.clusterUsers) := by
  refine ⟨?_, by decide, ?_⟩
  · intro raw c hnone hok
    obtain ⟨reps, cus, hreps, hcus, _, _, _, hcueq, _⟩ := unmarshalCluster_ok raw c hok
    rw [hnone] at hcus
    rw [hcueq]
    cases hcus
    rfl
  · intro raw rus c hsome hok
    obtain ⟨reps, cus, hreps, hcus, _, _, _, hcueq, _⟩ := unmarshalCluster_ok raw c hok
    rw [hsome] at hcus
    rw [hcueq]
    exact hcus

/-- **C10 witness.** `rawClusterNoUsers` (no `users` key) decodes with the
default user; `rawClusterHB` (present `users` key) gets exactly the
decoded entries. -/
theorem default_cluster_user_witness :
    clusterNoUsers.clusterUsers = [defaultClusterUser] ∧
    mapExcept unmarshalClusterUser [{ name := some "default" }] =
      .ok clusterHB.clusterUsers :=
  ⟨default_cluster_user.1 rawClusterNoUsers clusterNoUsers rfl (by decide),
    default_cluster_user.2.2 rawClusterHB [{ name := some "default" }] clusterHB
      rfl (by decide)⟩

end Chproxy
